import Mathlib

/-!
# Transaction event report reconciliation

A shallow embedding of the `transactionEventReport` reconciliation core of
this repository: a payment provider reports the outcome (SUCCESS / FAILURE)
of a charge / refund / cancel operation, and the report is folded exactly
once into the per-transaction ledger balances, with idempotent replay on a
duplicated `pspReference` and an `INCORRECT_DETAILS` error on a conflicting
re-report.

Money is modelled as an exact integral count of minor currency units
(`ℤ`): the source path uses exact fixed-point decimals and only ever adds,
subtracts and compares amounts, all of which are scale invariant, so the
integral model is faithful and keeps every definition decidable.

The reconciler itself (the resolver behind the GraphQL mutation) is not
among the source files; its behaviour is modelled from the spec (sections
4.1 to 4.3 and 7) and pinned at the concrete points asserted by
`saleor/graphql/payment/tests/mutations/test_transaction_event_report.py`.
-/

namespace Saleor

/-- Result carried by a report (GraphQL enum `TransactionEventReportResult`). -/
inductive ReportResult where
  | success
  | failure
  deriving DecidableEq

/-- Kind of payment action an event describes
(GraphQL enum `TransactionEventActionTypeEnum` / `TransactionAction`). -/
inductive ActionType where
  | charge
  | refund
  | cancel
  deriving DecidableEq

/-- Status stored on a persisted `TransactionEvent`
(`TransactionEventStatus`): `request` is written when the system itself
initiates an action; `success` / `failure` when a report resolves it. -/
inductive EventStatus where
  | request
  | success
  | failure
  deriving DecidableEq

/-- A persisted `TransactionEvent` row: the append-only event log entry. -/
structure Event where
  pspReference : String
  originalPspReference : Option String
  type : ActionType
  status : EventStatus
  amountValue : ℤ
  deriving DecidableEq

/-- A `TransactionItem` row: the cached per-transaction ledger balances
plus identity fields, as created by the test fixture `transaction_item`. -/
structure TransactionItem where
  id : ℕ
  status : String
  currency : String
  pspReference : String
  authorizedValue : ℤ
  chargedValue : ℤ
  refundedValue : ℤ
  voidedValue : ℤ
  pendingRefundValue : ℤ
  deriving DecidableEq

/-- The fields of a `transactionEventReport` mutation request that take part
in reconciliation (metadata-only fields such as `name`, `time`,
`externalUrl` and `availableActions` do not touch the arithmetic). -/
structure EventReport where
  transactionId : Option ℕ
  originalPspReference : Option String
  pspReference : String
  result : ReportResult
  type : ActionType
  amount : ℤ
  deriving DecidableEq

/-- Error codes surfaced to the caller (`TransactionRequestCompleteErrorCode`). -/
inductive ErrorCode where
  | incorrectDetails
  | notFound
  | invalid
  deriving DecidableEq

/-- The mutation payload on acceptance: `alreadyProcessed` plus the
transaction snapshot. -/
structure EventOutcome where
  alreadyProcessed : Bool
  transaction : TransactionItem
  deriving DecidableEq

/-- An event is terminal when it was resolved with Success or Failure (an
open `request` entry is not terminal). -/
def Event.isTerminal (e : Event) : Bool :=
  decide (e.status = EventStatus.success) || decide (e.status = EventStatus.failure)

/-- `EventLog.Lookup`: the first terminal event recorded under the given
`pspReference`, the idempotency key. -/
def lookupTerminal (log : List Event) (ref : String) : Option Event :=
  log.find? (fun e => e.isTerminal && decide (e.pspReference = ref))

/-- Whether a terminal event resolves the request whose reference is `ref`:
it either carries that reference itself or points to it through
`originalPspReference`. -/
def Event.resolves (e : Event) (ref : String) : Bool :=
  e.isTerminal && (decide (e.pspReference = ref) || decide (e.originalPspReference = some ref))

/-- A refund `request` event that no terminal event in the log has resolved
yet: a still-open pending refund request. -/
def isOpenRefundRequest (log : List Event) (q : Event) : Bool :=
  decide (q.status = EventStatus.request) && decide (q.type = ActionType.refund)
    && !(log.any (fun e => e.resolves q.pspReference))

/-- The still-open refund request a Success event resolves: matched by the
event's own `pspReference` or by its `originalPspReference`. -/
def successRequestMatch (log : List Event) (e : Event) : Option Event :=
  log.find? (fun q => isOpenRefundRequest log q &&
    (decide (q.pspReference = e.pspReference) ||
      decide (some q.pspReference = e.originalPspReference)))

/-- The still-open refund request a Failure event retires: matched through
`originalPspReference` only. -/
def failureRequestMatch (log : List Event) (e : Event) : Option Event :=
  log.find? (fun q => isOpenRefundRequest log q &&
    decide (some q.pspReference = e.originalPspReference))

/-- Modelled from the spec: the Reconciler balance rules (spec 4.2 steps 3
and 4) for one event, with the log as it stood before the event — the
resolver behind `transactionEventReport` is not among the source files.
The rules are pinned at the assertions of
`test_transaction_event_report.py`: a Success Charge adds to
`chargedValue` and subtracts from `authorizedValue`; a Success Refund adds
to `refundedValue`, subtracts from `chargedValue`, and reduces
`pendingRefundValue` by the reported amount or, when it resolves an open
refund request of amount P, by `max P amount` (rows of
`test_transaction_event_report_pending_refund_requested`); a Success
Cancel adds to `voidedValue` and zeroes `authorizedValue` regardless of
the amount (rows of `test_transaction_event_report_cancel`); a Failure
leaves every balance unchanged except that it retires the pending amount
of an open refund request referenced by `originalPspReference`. -/
def applyEvent (t : TransactionItem) (log : List Event) (e : Event) : TransactionItem :=
  match e.status with
  | EventStatus.request => t
  | EventStatus.failure =>
      match failureRequestMatch log e with
      | some q => { t with pendingRefundValue := t.pendingRefundValue - q.amountValue }
      | none => t
  | EventStatus.success =>
      match e.type with
      | ActionType.charge =>
          { t with
            chargedValue := t.chargedValue + e.amountValue,
            authorizedValue := t.authorizedValue - e.amountValue }
      | ActionType.refund =>
          { t with
            refundedValue := t.refundedValue + e.amountValue,
            chargedValue := t.chargedValue - e.amountValue,
            pendingRefundValue := t.pendingRefundValue -
              (match successRequestMatch log e with
               | some q => max q.amountValue e.amountValue
               | none => e.amountValue) }
      | ActionType.cancel =>
          { t with
            voidedValue := t.voidedValue + e.amountValue,
            authorizedValue := 0 }

/-- The terminal status a report resolves its event with. -/
def EventReport.statusOf (r : EventReport) : EventStatus :=
  match r.result with
  | ReportResult.success => EventStatus.success
  | ReportResult.failure => EventStatus.failure

/-- The event log entry appended for an accepted report. -/
def EventReport.toEvent (r : EventReport) : Event :=
  { pspReference := r.pspReference
    originalPspReference := r.originalPspReference
    type := r.type
    status := r.statusOf
    amountValue := r.amount }

/-- Modelled from the spec: `TransactionService.ReportEvent` on a resolved
transaction (spec 4.2 step 2, 4.3, 7) — the resolver itself is not among
the source files. Idempotency first: if a terminal event already carries
this `pspReference`, a report with the same result replays as
`alreadyProcessed = true` with the state untouched, and a report with a
different result is rejected with `INCORRECT_DETAILS`
(`test_transaction_event_incorrect_data`). Otherwise the balances are
updated through `applyEvent` and the event is appended to the log. -/
def reportEvent (t : TransactionItem) (log : List Event) (r : EventReport) :
    Except ErrorCode (EventOutcome × TransactionItem × List Event) :=
  match lookupTerminal log r.pspReference with
  | some e =>
      if e.status = r.statusOf then
        Except.ok ({ alreadyProcessed := true, transaction := t }, t, log)
      else
        Except.error ErrorCode.incorrectDetails
  | none =>
      let t' := applyEvent t log r.toEvent
      Except.ok ({ alreadyProcessed := false, transaction := t' }, t', r.toEvent :: log)

/-- Modelled from the spec: resolution of the target transaction (spec 6) —
when `transactionId` is absent, the target is the transaction whose own
top-level `psp_reference` equals the report's `originalPspReference`
(the refund tests resolve the fixture through
`original_psp_reference = "PSP ref"`). -/
def resolveTransaction (txs : List TransactionItem) (r : EventReport) :
    Option TransactionItem :=
  match r.transactionId with
  | some i => txs.find? (fun t => decide (t.id = i))
  | none =>
      match r.originalPspReference with
      | some ref => txs.find? (fun t => decide (t.pspReference = ref))
      | none => none

/-- Running a list of reports in order against one transaction: an accepted
report commits its new state and log atomically, a rejected report leaves
both untouched. -/
def runReports (t : TransactionItem) (log : List Event) :
    List EventReport → TransactionItem × List Event
  | [] => (t, log)
  | r :: rs =>
      match reportEvent t log r with
      | Except.ok (_, t', log') => runReports t' log' rs
      | Except.error _ => runReports t log rs

/-- Folding an event log (newest first) from a base state: each entry is
applied against the part of the log that was already present when it was
recorded. -/
def replay (t0 : TransactionItem) : List Event → TransactionItem
  | [] => t0
  | e :: rest => applyEvent (replay t0 rest) rest e

/-- The empty ledger state: all balances zero, no identity yet. -/
def emptyLedger : TransactionItem :=
  { id := 0
    status := ""
    currency := ""
    pspReference := ""
    authorizedValue := 0
    chargedValue := 0
    refundedValue := 0
    voidedValue := 0
    pendingRefundValue := 0 }

/-- The `transaction_item` test fixture: `authorized_value = 10`,
`charged_value = 10`, `pending_refund_value = 10`, `refunded_value = 10`,
`psp_reference = "PSP ref"`, currency USD. -/
def fixtureTransaction : TransactionItem :=
  { id := 1
    status := "Authorized"
    currency := "USD"
    pspReference := "PSP ref"
    authorizedValue := 10
    chargedValue := 10
    refundedValue := 10
    voidedValue := 0
    pendingRefundValue := 10 }

/-- The `transaction_event_refund` test fixture: an open refund request of
amount 10 under `psp_reference = "event_ref"`. -/
def fixtureRefundRequest : Event :=
  { pspReference := "event_ref"
    originalPspReference := none
    type := ActionType.refund
    status := EventStatus.request
    amountValue := 10 }


deriving instance DecidableEq for Except

/-- A report built the way the mutation tests build their variables:
`original_psp_reference = "PSP ref"` with the given result, type, amount
and `psp_reference`. -/
def mkReport (res : ReportResult) (ty : ActionType) (a : ℤ) (psp : String) :
    EventReport :=
  { transactionId := none
    originalPspReference := some "PSP ref"
    pspReference := psp
    result := res
    type := ty
    amount := a }

@[simp]
theorem toEvent_pspReference (r : EventReport) : r.toEvent.pspReference = r.pspReference :=
  rfl

@[simp]
theorem toEvent_originalPspReference (r : EventReport) :
    r.toEvent.originalPspReference = r.originalPspReference :=
  rfl

@[simp]
theorem toEvent_type (r : EventReport) : r.toEvent.type = r.type :=
  rfl

@[simp]
theorem toEvent_status (r : EventReport) : r.toEvent.status = r.statusOf :=
  rfl

@[simp]
theorem toEvent_amountValue (r : EventReport) : r.toEvent.amountValue = r.amount :=
  rfl

/-- C3: a fresh Charge Success of amount A adds exactly A to `chargedValue`,
subtracts exactly A from `authorizedValue` (which may thereby go negative:
no hypothesis bounds A by the authorized value), and leaves every other
field of the ledger state untouched. -/
theorem reportEvent_charge_success (t : TransactionItem) (log : List Event)
    (r : EventReport)
    (hfresh : lookupTerminal log r.pspReference = none)
    (htype : r.type = ActionType.charge)
    (hres : r.result = ReportResult.success)
    (hA : 0 ≤ r.amount) :
    reportEvent t log r =
      Except.ok
        ({ alreadyProcessed := false
           transaction := { t with
             chargedValue := t.chargedValue + r.amount
             authorizedValue := t.authorizedValue - r.amount } },
         { t with
           chargedValue := t.chargedValue + r.amount
           authorizedValue := t.authorizedValue - r.amount },
         r.toEvent :: log) := by
  simp [reportEvent, hfresh, applyEvent, EventReport.statusOf, hres, htype]

/-- Charge witness at the fixture: amount 15 over-charges, driving
`authorizedValue` to the negative value -5 as the charge test's last row
asserts. -/
theorem reportEvent_charge_success_witness :
    reportEvent fixtureTransaction []
        (mkReport ReportResult.success ActionType.charge 15 "new ref") =
      Except.ok
        ({ alreadyProcessed := false
           transaction := { fixtureTransaction with
             chargedValue := fixtureTransaction.chargedValue +
               (mkReport ReportResult.success ActionType.charge 15 "new ref").amount
             authorizedValue := fixtureTransaction.authorizedValue -
               (mkReport ReportResult.success ActionType.charge 15 "new ref").amount } },
         { fixtureTransaction with
           chargedValue := fixtureTransaction.chargedValue +
             (mkReport ReportResult.success ActionType.charge 15 "new ref").amount
           authorizedValue := fixtureTransaction.authorizedValue -
             (mkReport ReportResult.success ActionType.charge 15 "new ref").amount },
         (mkReport ReportResult.success ActionType.charge 15 "new ref").toEvent :: []) ∧
    fixtureTransaction.authorizedValue -
        (mkReport ReportResult.success ActionType.charge 15 "new ref").amount = -5 :=
  ⟨reportEvent_charge_success fixtureTransaction []
      (mkReport ReportResult.success ActionType.charge 15 "new ref")
      rfl rfl rfl (by decide),
    by decide⟩

/-- C4: a fresh Refund Success of amount A adds exactly A to
`refundedValue` and subtracts exactly A from `chargedValue`, with no
hypothesis bounding A by the charged value, so the charged value may go
negative (over-refund is a valid resulting state). -/
theorem reportEvent_refund_success (t : TransactionItem) (log : List Event)
    (r : EventReport)
    (hfresh : lookupTerminal log r.pspReference = none)
    (htype : r.type = ActionType.refund)
    (hres : r.result = ReportResult.success)
    (hA : 0 ≤ r.amount) :
    reportEvent t log r =
      Except.ok
        ({ alreadyProcessed := false
           transaction := { t with
             refundedValue := t.refundedValue + r.amount
             chargedValue := t.chargedValue - r.amount
             pendingRefundValue := t.pendingRefundValue -
               (match successRequestMatch log r.toEvent with
                | some q => max q.amountValue r.amount
                | none => r.amount) } },
         { t with
           refundedValue := t.refundedValue + r.amount
           chargedValue := t.chargedValue - r.amount
           pendingRefundValue := t.pendingRefundValue -
             (match successRequestMatch log r.toEvent with
              | some q => max q.amountValue r.amount
              | none => r.amount) },
         r.toEvent :: log) := by
  simp [reportEvent, hfresh, applyEvent, EventReport.statusOf, hres, htype]

/-- Refund witness at the fixture: amount 15 is the over-refund row of the
refund test, `refundedValue` 10 + 15 = 25 and `chargedValue` 10 - 15 = -5. -/
theorem reportEvent_refund_success_witness :
    reportEvent fixtureTransaction []
        (mkReport ReportResult.success ActionType.refund 15 "new ref") =
      Except.ok
        ({ alreadyProcessed := false
           transaction := { fixtureTransaction with
             refundedValue := fixtureTransaction.refundedValue +
               (mkReport ReportResult.success ActionType.refund 15 "new ref").amount
             chargedValue := fixtureTransaction.chargedValue -
               (mkReport ReportResult.success ActionType.refund 15 "new ref").amount
             pendingRefundValue := fixtureTransaction.pendingRefundValue -
               (match successRequestMatch []
                   (mkReport ReportResult.success ActionType.refund 15 "new ref").toEvent with
                | some q => max q.amountValue
                    (mkReport ReportResult.success ActionType.refund 15 "new ref").amount
                | none => (mkReport ReportResult.success ActionType.refund 15 "new ref").amount) } },
         { fixtureTransaction with
           refundedValue := fixtureTransaction.refundedValue +
             (mkReport ReportResult.success ActionType.refund 15 "new ref").amount
           chargedValue := fixtureTransaction.chargedValue -
             (mkReport ReportResult.success ActionType.refund 15 "new ref").amount
           pendingRefundValue := fixtureTransaction.pendingRefundValue -
             (match successRequestMatch []
                 (mkReport ReportResult.success ActionType.refund 15 "new ref").toEvent with
              | some q => max q.amountValue
                  (mkReport ReportResult.success ActionType.refund 15 "new ref").amount
              | none => (mkReport ReportResult.success ActionType.refund 15 "new ref").amount) },
         (mkReport ReportResult.success ActionType.refund 15 "new ref").toEvent :: []) ∧
    fixtureTransaction.refundedValue +
        (mkReport ReportResult.success ActionType.refund 15 "new ref").amount = 25 ∧
    fixtureTransaction.chargedValue -
        (mkReport ReportResult.success ActionType.refund 15 "new ref").amount = -5 :=
  ⟨reportEvent_refund_success fixtureTransaction []
      (mkReport ReportResult.success ActionType.refund 15 "new ref")
      rfl rfl rfl (by decide),
    by decide, by decide⟩

/-- C5 counterexample: at the fixture with the still-open refund request of
amount 10 under reference "event_ref", a Refund Success for "event_ref" of
amount 15 leaves `pendingRefundValue = -5`, a reduction of 15, not the
requested 10 — the reduction is not independent of the reported amount
(row "15.00" of `test_transaction_event_report_pending_refund_requested`). -/
theorem pendingRefund_reducedByRequested_counterexample :
    isOpenRefundRequest [fixtureRefundRequest] fixtureRefundRequest = true ∧
    (runReports fixtureTransaction [fixtureRefundRequest]
        [mkReport ReportResult.success ActionType.refund 15 "event_ref"]).1.pendingRefundValue
      = -5 ∧
    ¬ (runReports fixtureTransaction [fixtureRefundRequest]
        [mkReport ReportResult.success ActionType.refund 15 "event_ref"]).1.pendingRefundValue
      = fixtureTransaction.pendingRefundValue - fixtureRefundRequest.amountValue := by
  decide

/-- C5 amended: a fresh Refund Success that resolves a still-open refund
request of amount P reduces `pendingRefundValue` by `max P A`: by exactly
the pending amount P when the reported amount A is at most P, and by A
when the report over-refunds beyond the request. -/
theorem reportEvent_pendingRefund_resolution (t : TransactionItem) (log : List Event)
    (r : EventReport) (q : Event)
    (hfresh : lookupTerminal log r.pspReference = none)
    (htype : r.type = ActionType.refund)
    (hres : r.result = ReportResult.success)
    (hq : successRequestMatch log r.toEvent = some q) :
    reportEvent t log r =
      Except.ok
        ({ alreadyProcessed := false
           transaction := { t with
             refundedValue := t.refundedValue + r.amount
             chargedValue := t.chargedValue - r.amount
             pendingRefundValue := t.pendingRefundValue - max q.amountValue r.amount } },
         { t with
           refundedValue := t.refundedValue + r.amount
           chargedValue := t.chargedValue - r.amount
           pendingRefundValue := t.pendingRefundValue - max q.amountValue r.amount },
         r.toEvent :: log) := by
  simp [reportEvent, hfresh, applyEvent, EventReport.statusOf, hres, htype, hq]

/-- Witness for the amended C5 at the "10.00" row: resolving the open
request of 10 with a Success of 10 reduces the pending value by
`max 10 10 = 10`, to zero. -/
theorem reportEvent_pendingRefund_resolution_witness :
    reportEvent fixtureTransaction [fixtureRefundRequest]
        (mkReport ReportResult.success ActionType.refund 10 "event_ref") =
      Except.ok
        ({ alreadyProcessed := false
           transaction := { fixtureTransaction with
             refundedValue := fixtureTransaction.refundedValue +
               (mkReport ReportResult.success ActionType.refund 10 "event_ref").amount
             chargedValue := fixtureTransaction.chargedValue -
               (mkReport ReportResult.success ActionType.refund 10 "event_ref").amount
             pendingRefundValue := fixtureTransaction.pendingRefundValue -
               max fixtureRefundRequest.amountValue
                 (mkReport ReportResult.success ActionType.refund 10 "event_ref").amount } },
         { fixtureTransaction with
           refundedValue := fixtureTransaction.refundedValue +
             (mkReport ReportResult.success ActionType.refund 10 "event_ref").amount
           chargedValue := fixtureTransaction.chargedValue -
             (mkReport ReportResult.success ActionType.refund 10 "event_ref").amount
           pendingRefundValue := fixtureTransaction.pendingRefundValue -
             max fixtureRefundRequest.amountValue
               (mkReport ReportResult.success ActionType.refund 10 "event_ref").amount },
         (mkReport ReportResult.success ActionType.refund 10 "event_ref").toEvent
           :: [fixtureRefundRequest]) ∧
    fixtureTransaction.pendingRefundValue -
        max fixtureRefundRequest.amountValue
          (mkReport ReportResult.success ActionType.refund 10 "event_ref").amount = 0 :=
  ⟨reportEvent_pendingRefund_resolution fixtureTransaction [fixtureRefundRequest]
      (mkReport ReportResult.success ActionType.refund 10 "event_ref")
      fixtureRefundRequest rfl rfl rfl (by decide),
    by decide⟩

/-- C6: a fresh Cancel Success of amount A on a transaction with positive
authorized value adds exactly A to `voidedValue` and zeroes
`authorizedValue` regardless of how A compares to the prior authorized
value; no other field changes. -/
theorem reportEvent_cancel_success (t : TransactionItem) (log : List Event)
    (r : EventReport)
    (hfresh : lookupTerminal log r.pspReference = none)
    (htype : r.type = ActionType.cancel)
    (hres : r.result = ReportResult.success)
    (hauth : 0 < t.authorizedValue) :
    reportEvent t log r =
      Except.ok
        ({ alreadyProcessed := false
           transaction := { t with
             voidedValue := t.voidedValue + r.amount
             authorizedValue := 0 } },
         { t with
           voidedValue := t.voidedValue + r.amount
           authorizedValue := 0 },
         r.toEvent :: log) := by
  simp [reportEvent, hfresh, applyEvent, EventReport.statusOf, hres, htype]

/-- Cancel witness at the fixture (`authorizedValue = 10 > 0`), amount 5:
`voidedValue` becomes 5 and `authorizedValue` becomes 0, the "5" row of
`test_transaction_event_report_cancel`. -/
theorem reportEvent_cancel_success_witness :
    reportEvent fixtureTransaction []
        (mkReport ReportResult.success ActionType.cancel 5 "new ref") =
      Except.ok
        ({ alreadyProcessed := false
           transaction := { fixtureTransaction with
             voidedValue := fixtureTransaction.voidedValue +
               (mkReport ReportResult.success ActionType.cancel 5 "new ref").amount
             authorizedValue := 0 } },
         { fixtureTransaction with
           voidedValue := fixtureTransaction.voidedValue +
             (mkReport ReportResult.success ActionType.cancel 5 "new ref").amount
           authorizedValue := 0 },
         (mkReport ReportResult.success ActionType.cancel 5 "new ref").toEvent :: []) ∧
    fixtureTransaction.voidedValue +
        (mkReport ReportResult.success ActionType.cancel 5 "new ref").amount = 5 :=
  ⟨reportEvent_cancel_success fixtureTransaction []
      (mkReport ReportResult.success ActionType.cancel 5 "new ref")
      rfl rfl rfl (by decide),
    by decide⟩

/-- C7 counterexample: at the fixture (`authorizedValue = 10`), a Cancel
Success of amount 0 leaves `authorizedValue = 0`, not the proportional
`10 - 0 = 10` the claim predicts (row "0" of
`test_transaction_event_report_cancel` asserts `authorizedAmount == 0`). -/
theorem cancel_proportional_release_counterexample :
    (runReports fixtureTransaction []
        [mkReport ReportResult.success ActionType.cancel 0 "new ref"]).1.authorizedValue = 0 ∧
    fixtureTransaction.authorizedValue -
        (mkReport ReportResult.success ActionType.cancel 0 "new ref").amount = 10 ∧
    ¬ (runReports fixtureTransaction []
        [mkReport ReportResult.success ActionType.cancel 0 "new ref"]).1.authorizedValue
      = fixtureTransaction.authorizedValue -
          (mkReport ReportResult.success ActionType.cancel 0 "new ref").amount := by
  decide

/-- C7 amended: a fresh Cancel Success of amount A adds A to `voidedValue`
and sets `authorizedValue` to 0 whatever A is — cancel zeroes the
remaining authorization rather than releasing it proportionally, so from
`authorizedValue = 10` a Cancel Success of amount 0 also ends at 0. -/
theorem reportEvent_cancel_zeroes_authorization (t : TransactionItem)
    (log : List Event) (r : EventReport)
    (hfresh : lookupTerminal log r.pspReference = none)
    (htype : r.type = ActionType.cancel)
    (hres : r.result = ReportResult.success) :
    reportEvent t log r =
      Except.ok
        ({ alreadyProcessed := false
           transaction := { t with
             voidedValue := t.voidedValue + r.amount
             authorizedValue := 0 } },
         { t with
           voidedValue := t.voidedValue + r.amount
           authorizedValue := 0 },
         r.toEvent :: log) := by
  simp [reportEvent, hfresh, applyEvent, EventReport.statusOf, hres, htype]

/-- Witness for the amended C7 at the fixture with amount 0: the voided
value stays 0 + 0 and the authorized value drops from 10 to 0. -/
theorem reportEvent_cancel_zeroes_authorization_witness :
    reportEvent fixtureTransaction []
        (mkReport ReportResult.success ActionType.cancel 0 "zero ref") =
      Except.ok
        ({ alreadyProcessed := false
           transaction := { fixtureTransaction with
             voidedValue := fixtureTransaction.voidedValue +
               (mkReport ReportResult.success ActionType.cancel 0 "zero ref").amount
             authorizedValue := 0 } },
         { fixtureTransaction with
           voidedValue := fixtureTransaction.voidedValue +
             (mkReport ReportResult.success ActionType.cancel 0 "zero ref").amount
           authorizedValue := 0 },
         (mkReport ReportResult.success ActionType.cancel 0 "zero ref").toEvent :: []) ∧
    fixtureTransaction.authorizedValue = 10 :=
  ⟨reportEvent_cancel_zeroes_authorization fixtureTransaction []
      (mkReport ReportResult.success ActionType.cancel 0 "zero ref")
      rfl rfl rfl,
    by decide⟩

/-- The entry appended for a report is found first by the idempotency
lookup on that report's `pspReference`. -/
theorem lookupTerminal_cons_self (log : List Event) (r : EventReport) :
    lookupTerminal (r.toEvent :: log) r.pspReference = some r.toEvent := by
  cases hr : r.result <;>
    simp [lookupTerminal, List.find?, Event.isTerminal, EventReport.statusOf, hr]

/-- C1: once a report has been accepted (first call returns `ok`), replaying
the very same report returns `alreadyProcessed = true` and hands back the
state and log of the first call unchanged — the retry is bit-for-bit the
same snapshot, with no balance change. -/
theorem reportEvent_replay_idempotent (t t1 : TransactionItem)
    (log log1 : List Event) (r : EventReport) (o : EventOutcome)
    (h : reportEvent t log r = Except.ok (o, t1, log1)) :
    reportEvent t1 log1 r =
      Except.ok ({ alreadyProcessed := true, transaction := t1 }, t1, log1) := by
  unfold reportEvent at h
  cases hl : lookupTerminal log r.pspReference with
  | some e =>
      simp only [hl] at h
      by_cases hs : e.status = r.statusOf
      · rw [if_pos hs] at h
        simp only [Except.ok.injEq, Prod.mk.injEq] at h
        obtain ⟨-, ht1, hlog1⟩ := h
        subst ht1
        subst hlog1
        simp [reportEvent, hl, hs]
      · rw [if_neg hs] at h
        exact absurd h (by simp)
  | none =>
      simp only [hl] at h
      simp only [Except.ok.injEq, Prod.mk.injEq] at h
      obtain ⟨-, ht1, hlog1⟩ := h
      subst ht1
      subst hlog1
      simp [reportEvent, lookupTerminal_cons_self]

/-- State and log after the fixture accepts a Refund Success of 10 under
"new ref": refunded 20, charged 0, pending 0, and the appended entry. -/
def replayTx : TransactionItem :=
  { fixtureTransaction with
    refundedValue := 20
    chargedValue := 0
    pendingRefundValue := 0 }

/-- The first-call report used by the replay and conflict witnesses. -/
def replayBaseReport : EventReport :=
  mkReport ReportResult.success ActionType.refund 10 "new ref"

/-- The log after the fixture accepts `replayBaseReport`. -/
def replayLog : List Event :=
  [replayBaseReport.toEvent]

/-- Replay witness: after the fixture accepts a Refund Success of 10, the
identical report replays as `alreadyProcessed = true` on the unchanged
state. -/
theorem reportEvent_replay_idempotent_witness :
    reportEvent replayTx replayLog replayBaseReport =
      Except.ok ({ alreadyProcessed := true, transaction := replayTx },
        replayTx, replayLog) :=
  reportEvent_replay_idempotent fixtureTransaction replayTx [] replayLog
    replayBaseReport { alreadyProcessed := false, transaction := replayTx }
    (by decide)

/-- C2: after a `pspReference` was accepted with result SUCCESS, a second
report for the same reference carrying result FAILURE is rejected with
`INCORRECT_DETAILS`, and the state and log of the first call persist
unchanged (a rejected report commits nothing). -/
theorem reportEvent_conflicting_result (t t1 : TransactionItem)
    (log log1 : List Event) (r1 r2 : EventReport) (o : EventOutcome)
    (h : reportEvent t log r1 = Except.ok (o, t1, log1))
    (hres1 : r1.result = ReportResult.success)
    (hpsp : r2.pspReference = r1.pspReference)
    (hres2 : r2.result = ReportResult.failure) :
    reportEvent t1 log1 r2 = Except.error ErrorCode.incorrectDetails ∧
    runReports t1 log1 [r2] = (t1, log1) := by
  have herr : reportEvent t1 log1 r2 = Except.error ErrorCode.incorrectDetails := by
    unfold reportEvent at h
    cases hl : lookupTerminal log r1.pspReference with
    | some e =>
        simp only [hl] at h
        by_cases hs : e.status = r1.statusOf
        · rw [if_pos hs] at h
          simp only [Except.ok.injEq, Prod.mk.injEq] at h
          obtain ⟨-, ht1, hlog1⟩ := h
          subst ht1
          subst hlog1
          unfold reportEvent
          rw [hpsp]
          simp [hl, hs, EventReport.statusOf, hres1, hres2]
        · rw [if_neg hs] at h
          exact absurd h (by simp)
    | none =>
        simp only [hl] at h
        simp only [Except.ok.injEq, Prod.mk.injEq] at h
        obtain ⟨-, ht1, hlog1⟩ := h
        subst ht1
        subst hlog1
        unfold reportEvent
        rw [hpsp]
        simp [lookupTerminal_cons_self, EventReport.statusOf, hres1, hres2]
  exact ⟨herr, by simp [runReports, herr]⟩

/-- The conflicting second report of the incorrect-data test: same
`pspReference` as `replayBaseReport` but result FAILURE. -/
def conflictReport : EventReport :=
  mkReport ReportResult.failure ActionType.refund 10 "new ref"

/-- Conflict witness (the scenario of `test_transaction_event_incorrect_data`):
SUCCESS then FAILURE on "new ref" ends in `INCORRECT_DETAILS` with the
post-first-call state persisting. -/
theorem reportEvent_conflicting_result_witness :
    reportEvent replayTx replayLog conflictReport =
      Except.error ErrorCode.incorrectDetails ∧
    runReports replayTx replayLog [conflictReport] = (replayTx, replayLog) :=
  reportEvent_conflicting_result fixtureTransaction replayTx [] replayLog
    replayBaseReport conflictReport
    { alreadyProcessed := false, transaction := replayTx }
    (by decide) rfl rfl rfl

/-- C8: a fresh report with result FAILURE appends a Failure entry and
changes no balance — except that when its `originalPspReference` points at
a still-open pending refund request, the originally requested amount is
retired from `pendingRefundValue`, with `refundedValue` still untouched. -/
theorem reportEvent_failure_frame (t : TransactionItem) (log : List Event)
    (r : EventReport)
    (hfresh : lookupTerminal log r.pspReference = none)
    (hres : r.result = ReportResult.failure) :
    r.toEvent.status = EventStatus.failure ∧
    reportEvent t log r =
      Except.ok
        ({ alreadyProcessed := false
           transaction := { t with
             pendingRefundValue := t.pendingRefundValue -
               (match failureRequestMatch log r.toEvent with
                | some q => q.amountValue
                | none => 0) } },
         { t with
           pendingRefundValue := t.pendingRefundValue -
             (match failureRequestMatch log r.toEvent with
              | some q => q.amountValue
              | none => 0) },
         r.toEvent :: log) := by
  constructor
  · simp [EventReport.statusOf, hres]
  · cases hm : failureRequestMatch log r.toEvent with
    | some q => simp [reportEvent, hfresh, applyEvent, EventReport.statusOf, hres, hm]
    | none => simp [reportEvent, hfresh, applyEvent, EventReport.statusOf, hres, hm]

/-- A Failure report resolving the open refund request "event_ref" through
its `originalPspReference`. -/
def failedRefundReport : EventReport :=
  { transactionId := none
    originalPspReference := some "event_ref"
    pspReference := "fail ref"
    result := ReportResult.failure
    type := ActionType.refund
    amount := 0 }

/-- Failure witness: at the fixture with the open request of 10, a FAILURE
retires the requested 10 from `pendingRefundValue` (10 - 10 = 0) while all
other balances stay put. -/
theorem reportEvent_failure_frame_witness :
    (failedRefundReport.toEvent.status = EventStatus.failure ∧
      reportEvent fixtureTransaction [fixtureRefundRequest] failedRefundReport =
        Except.ok
          ({ alreadyProcessed := false
             transaction := { fixtureTransaction with
               pendingRefundValue := fixtureTransaction.pendingRefundValue -
                 (match failureRequestMatch [fixtureRefundRequest]
                     failedRefundReport.toEvent with
                  | some q => q.amountValue
                  | none => 0) } },
           { fixtureTransaction with
             pendingRefundValue := fixtureTransaction.pendingRefundValue -
               (match failureRequestMatch [fixtureRefundRequest]
                   failedRefundReport.toEvent with
                | some q => q.amountValue
                | none => 0) },
           failedRefundReport.toEvent :: [fixtureRefundRequest])) ∧
    fixtureTransaction.pendingRefundValue -
        (match failureRequestMatch [fixtureRefundRequest] failedRefundReport.toEvent with
         | some q => q.amountValue
         | none => 0) = 0 :=
  ⟨reportEvent_failure_frame fixtureTransaction [fixtureRefundRequest]
      failedRefundReport rfl rfl,
    by decide⟩

/-- An accepted report keeps the cached state equal to the replay of the
log it commits. -/
theorem reportEvent_preserves_replay (t t1 : TransactionItem)
    (log log1 : List Event) (r : EventReport) (o : EventOutcome)
    (h : reportEvent t log r = Except.ok (o, t1, log1))
    (t0 : TransactionItem) (ht : t = replay t0 log) :
    t1 = replay t0 log1 := by
  unfold reportEvent at h
  cases hl : lookupTerminal log r.pspReference with
  | some e =>
      simp only [hl] at h
      by_cases hs : e.status = r.statusOf
      · rw [if_pos hs] at h
        simp only [Except.ok.injEq, Prod.mk.injEq] at h
        obtain ⟨-, ht1, hlog1⟩ := h
        subst ht1
        subst hlog1
        exact ht
      · rw [if_neg hs] at h
        exact absurd h (by simp)
  | none =>
      simp only [hl] at h
      simp only [Except.ok.injEq, Prod.mk.injEq] at h
      obtain ⟨-, ht1, hlog1⟩ := h
      subst ht1
      subst hlog1
      simp [replay, ht]

/-- The replay invariant survives any list of reports. -/
theorem runReports_replay_invariant (t0 : TransactionItem) (rs : List EventReport)
    (t : TransactionItem) (log : List Event) (ht : t = replay t0 log) :
    (runReports t log rs).1 = replay t0 (runReports t log rs).2 := by
  induction rs generalizing t log with
  | nil => simpa [runReports] using ht
  | cons r rs ih =>
      cases hre : reportEvent t log r with
      | error e =>
          simp only [runReports, hre]
          exact ih t log ht
      | ok res =>
          obtain ⟨o, t1, log1⟩ := res
          simp only [runReports, hre]
          exact ih t1 log1
            (reportEvent_preserves_replay t t1 log log1 r o hre t0 ht)

/-- C9: after any sequence of `reportEvent` applications starting from the
empty ledger state and empty event log, the cached ledger state equals the
fold of the full event log from the empty state — the cached balances are
a derived projection of the log at every point. -/
theorem ledgerState_is_replay_of_eventLog (rs : List EventReport) :
    (runReports emptyLedger [] rs).1 =
      replay emptyLedger (runReports emptyLedger [] rs).2 :=
  runReports_replay_invariant emptyLedger rs emptyLedger [] rfl

/-- Reconciliation never rewrites the transaction's own top-level
`pspReference`. -/
theorem applyEvent_pspReference (t : TransactionItem) (log : List Event)
    (e : Event) : (applyEvent t log e).pspReference = t.pspReference := by
  unfold applyEvent
  split
  · rfl
  · split <;> rfl
  · split <;> rfl

/-- C10: with `transactionId` absent, the target transaction is the one
whose own top-level `psp_reference` equals the report's
`originalPspReference`; and an accepted report returns and stores a
snapshot whose transaction reference is the pre-existing one — no report
ever overwrites it with the new event's `pspReference`. -/
theorem resolveTransaction_by_reference :
    (∀ (txs : List TransactionItem) (r : EventReport) (t : TransactionItem)
        (ref : String),
        r.transactionId = none → r.originalPspReference = some ref →
        resolveTransaction txs r = some t → t.pspReference = ref) ∧
    (∀ (t t1 : TransactionItem) (log log1 : List Event) (r : EventReport)
        (o : EventOutcome),
        reportEvent t log r = Except.ok (o, t1, log1) →
        o.transaction.pspReference = t.pspReference ∧
          t1.pspReference = t.pspReference) := by
  constructor
  · intro txs r t ref hid horig hres
    unfold resolveTransaction at hres
    rw [hid, horig] at hres
    have hp := List.find?_some hres
    simpa using hp
  · intro t t1 log log1 r o h
    unfold reportEvent at h
    cases hl : lookupTerminal log r.pspReference with
    | some e =>
        simp only [hl] at h
        by_cases hs : e.status = r.statusOf
        · rw [if_pos hs] at h
          simp only [Except.ok.injEq, Prod.mk.injEq] at h
          obtain ⟨ho, ht1, -⟩ := h
          subst ho
          subst ht1
          exact ⟨rfl, rfl⟩
        · rw [if_neg hs] at h
          exact absurd h (by simp)
    | none =>
        simp only [hl] at h
        simp only [Except.ok.injEq, Prod.mk.injEq] at h
        obtain ⟨ho, ht1, -⟩ := h
        subst ho
        subst ht1
        exact ⟨applyEvent_pspReference t log r.toEvent,
          applyEvent_pspReference t log r.toEvent⟩

/-- Resolution witness: the refund test's variables (`transactionId`
absent, `originalPspReference = "PSP ref"`) resolve the fixture, whose
top-level reference is "PSP ref"; and the snapshot returned by the
accepted refund still carries "PSP ref", not "new ref". -/
theorem resolveTransaction_by_reference_witness :
    fixtureTransaction.pspReference = "PSP ref" ∧
    ((EventOutcome.mk false replayTx).transaction.pspReference =
        fixtureTransaction.pspReference ∧
      replayTx.pspReference = fixtureTransaction.pspReference) :=
  ⟨resolveTransaction_by_reference.1 [fixtureTransaction] replayBaseReport
      fixtureTransaction "PSP ref" rfl rfl (by decide),
    resolveTransaction_by_reference.2 fixtureTransaction replayTx [] replayLog
      replayBaseReport (EventOutcome.mk false replayTx) (by decide)⟩

end Saleor
